import Mathlib

/-!
Verification of the MurmurAI Sublime Text plugin
(src/integrations/sublime/MurmurAI.py).

The plugin is UI glue: five window commands, four of which shell out to the
external executable "mur" on a background thread and render the captured
output into a named output panel, plus one command that opens a settings
file.  We embed the plugin shallowly: each invocation is a pure function
from its inputs (the active view, the subprocess outcome) to the list of
effects it performs, in order.  UI actions posted via
`sublime.set_timeout(..., 0)` are modelled as executing in posting order.
-/

/-- Python `str` truthiness/whitespace for `str.strip()`: the ASCII
whitespace characters stripped by Python's `strip` with no argument. -/
def isPySpace (c : Char) : Bool :=
  c = ' ' || c = '\t' || c = '\n' || c = '\r' || c = '\x0b' || c = '\x0c'

/-- Python `s.strip()`: remove leading and trailing whitespace. -/
def pyStrip (s : String) : String :=
  String.mk (((s.toList.dropWhile isPySpace).reverse.dropWhile isPySpace).reverse)

/-- `os.path.dirname` (posixpath): everything up to the last `/`, with
trailing slashes stripped unless the head consists only of slashes. -/
def dirname (p : String) : String :=
  let cs := p.toList
  match cs.reverse.findIdx? (fun c => c = '/') with
  | none => ""
  | some j =>
    let head := cs.take (cs.length - j)
    if head.all (fun c => c = '/') then String.mk head
    else String.mk ((head.reverse.dropWhile (fun c => c = '/')).reverse)

/-- Result of `subprocess.run(..., capture_output=True, text=True)`:
exit code plus separately captured textual stdout and stderr. -/
structure CompletedProcess where
  returncode : Int
  stdout : String
  stderr : String
deriving DecidableEq

/-- A Sublime view, reduced to what the plugin reads: `view.file_name()`,
which is `None` or a path string. -/
structure ViewState where
  file_name : Option String
deriving DecidableEq

/-- Outcome of the one `subprocess.run` call: normal completion, a
`FileNotFoundError` from spawning, or any other exception (with its
`str(e)` text). -/
inductive SpawnOutcome
  | completed (r : CompletedProcess)
  | raiseFileNotFound
  | raiseOther (msg : String)
deriving DecidableEq

/-- UI mutations the plugin performs (directly or marshalled onto the UI
thread): clearing the panel (`clear_output` = select_all + right_delete),
appending to and showing the panel (`show_output` appends
`content + "\n"`), setting the status bar, and asking the host to open a
file. -/
inductive UIAction
  | clearPanel
  | showOutput (content : String)
  | status (msg : String)
  | openFile (path : String)
deriving DecidableEq

/-- One observable effect of an invocation: a UI action, or spawning the
subprocess with an argv and optional working directory (`cwd=None` means
no override). -/
inductive Effect
  | ui (a : UIAction)
  | spawn (argv : List String) (cwd : Option String)
deriving DecidableEq

/-- The working directory the plugin derives inside `run`:
`os.path.dirname(view.file_name())` when there is an active view and
`view.file_name()` is truthy (non-`None` and non-empty), else `None`.
Mirrors `if view and view.file_name(): cwd = os.path.dirname(...)`. -/
def activeViewCwd (view : Option ViewState) : Option String :=
  match view with
  | none => none
  | some v =>
    match v.file_name with
    | none => none
    | some f => if f = "" then none else some (dirname f)

/-- The echoed command line `f"$ mur {' '.join(args)}\n"`. -/
def echoLine (args : List String) : String :=
  "$ mur " ++ String.intercalate " " args ++ "\n"

/-- `output = result.stdout; if result.stderr: output += "\n" + result.stderr`. -/
def combinedOutput (r : CompletedProcess) : String :=
  r.stdout ++ (if r.stderr = "" then "" else "\n" ++ r.stderr)

/-- The fixed installation-instructions message shown on
`FileNotFoundError`. -/
def errorNotFoundMsg : String :=
  "Error: 'mur' command not found.\n" ++
  "Please install murmur-ai CLI and ensure it's in your PATH.\n" ++
  "See: https://github.com/anthropics/murmur-ai"

/-- The body of the background thread `run()` inside `run_mur_command`,
as the ordered list of effects it performs, given the active view and the
outcome of the subprocess call. -/
def threadBody (args : List String) (status_msg : String) (clear : Bool)
    (view : Option ViewState) (o : SpawnOutcome) : List Effect :=
  let pre := (if clear then [Effect.ui UIAction.clearPanel] else []) ++
    [Effect.ui (UIAction.showOutput (echoLine args))]
  let sp := Effect.spawn (["mur"] ++ args) (activeViewCwd view)
  match o with
  | SpawnOutcome.completed r =>
    let output := combinedOutput r
    pre ++ [sp] ++
    (if pyStrip output = "" then []
      else [Effect.ui (UIAction.showOutput output)]) ++
    (if r.returncode = 0
      then [Effect.ui (UIAction.status ("Murmur: " ++ status_msg ++ " complete"))]
      else [Effect.ui (UIAction.status ("Murmur: " ++ status_msg ++ " failed"))])
  | SpawnOutcome.raiseFileNotFound =>
    pre ++ [sp] ++
    [Effect.ui (UIAction.showOutput errorNotFoundMsg),
     Effect.ui (UIAction.status "Murmur: CLI not found")]
  | SpawnOutcome.raiseOther msg =>
    pre ++ [sp] ++
    [Effect.ui (UIAction.showOutput ("Error: " ++ msg)),
     Effect.ui (UIAction.status "Murmur: Error occurred")]

/-- `run_mur_command(window, args, status_msg, clear=True)`: shows the
transient running status on the UI thread, then starts the background
thread whose effects are `threadBody`. -/
def run_mur_command (args : List String) (status_msg : String) (clear : Bool)
    (view : Option ViewState) (o : SpawnOutcome) : List Effect :=
  Effect.ui (UIAction.status ("Murmur: " ++ status_msg ++ "...")) ::
    threadBody args status_msg clear view o

/-- The status-bar messages of an effect trace, in order. -/
def statusMessages (effs : List Effect) : List String :=
  effs.filterMap (fun e => match e with
    | Effect.ui (UIAction.status m) => some m
    | _ => none)

/-- The contents appended to the panel by `show_output`, in order. -/
def appendedOutputs (effs : List Effect) : List String :=
  effs.filterMap (fun e => match e with
    | Effect.ui (UIAction.showOutput c) => some c
    | _ => none)

/-- The subprocess spawns of an effect trace: (argv, cwd) pairs. -/
def spawnEvents (effs : List Effect) : List (List String × Option String) :=
  effs.filterMap (fun e => match e with
    | Effect.spawn argv cwd => some (argv, cwd)
    | _ => none)

/-- The file-open requests of an effect trace. -/
def openFileEvents (effs : List Effect) : List String :=
  effs.filterMap (fun e => match e with
    | Effect.ui (UIAction.openFile p) => some p
    | _ => none)

/-- The last status-bar message of a trace. -/
def finalStatus (effs : List Effect) : Option String :=
  (statusMessages effs).getLast?

/-- How one effect transforms the panel text: `clear_output` empties it,
`show_output` appends `content + "\n"`; nothing else touches it. -/
def applyEffect (p : String) (e : Effect) : String :=
  match e with
  | Effect.ui UIAction.clearPanel => ""
  | Effect.ui (UIAction.showOutput c) => p ++ c ++ "\n"
  | _ => p

/-- Panel text after running a trace from initial panel text `p`. -/
def panelAfter (p : String) (effs : List Effect) : String :=
  effs.foldl applyEffect p

/-- The fixed data of one mur-backed command class: the argument vector
and status message it passes to `run_mur_command`, and the `clear` value
(all four use the default `clear=True`). -/
structure MurCommandInvocation where
  args : List String
  status_msg : String
  clear : Bool
deriving DecidableEq

/-- `MurmurSyncCommand.run`: `run_mur_command(self.window, ["sync", "all"], "Syncing")`. -/
def murmurSyncCommand : MurCommandInvocation :=
  ⟨["sync", "all"], "Syncing", true⟩

/-- `MurmurLearnExtractCommand.run`. -/
def murmurLearnExtractCommand : MurCommandInvocation :=
  ⟨["learn", "extract", "--auto"], "Extracting learnings", true⟩

/-- `MurmurStatsCommand.run`. -/
def murmurStatsCommand : MurCommandInvocation :=
  ⟨["stats"], "Loading stats", true⟩

/-- `MurmurPatternsCommand.run`. -/
def murmurPatternsCommand : MurCommandInvocation :=
  ⟨["patterns", "list"], "Loading patterns", true⟩

/-- The four mur-backed commands. -/
def murBackedCommands : List MurCommandInvocation :=
  [murmurSyncCommand, murmurLearnExtractCommand, murmurStatsCommand,
   murmurPatternsCommand]

/-- Invoking one of the mur-backed commands. -/
def invoke (c : MurCommandInvocation) (view : Option ViewState)
    (o : SpawnOutcome) : List Effect :=
  run_mur_command c.args c.status_msg c.clear view o

/-- `MurmurOpenSettingsCommand.run`: a single `open_file` window command
on the fixed settings path; no subprocess, no panel traffic. -/
def murmurOpenSettingsEffects : List Effect :=
  [Effect.ui (UIAction.openFile "${packages}/MurmurAI/MurmurAI.sublime-settings")]

/-- `sub` occurs inside `s` as a contiguous substring. -/
def strContains (s sub : String) : Prop :=
  sub.toList <:+: s.toList

instance (s sub : String) : Decidable (strContains s sub) := by
  unfold strContains; infer_instance

/-- A window's panel registry: panel names mapped to panel identities, plus
a counter for fresh panels.  Models `window.find_output_panel` /
`window.create_output_panel`. -/
structure WindowPanels where
  panels : List (String × Nat)
  nextId : Nat
deriving DecidableEq

/-- `window.find_output_panel(name)`. -/
def find_output_panel (w : WindowPanels) (name : String) : Option Nat :=
  (w.panels.find? (fun pr => pr.1 == name)).map (fun pr => pr.2)

/-- `window.create_output_panel(name)`. -/
def create_output_panel (w : WindowPanels) (name : String) : Nat × WindowPanels :=
  (w.nextId, ⟨w.panels ++ [(name, w.nextId)], w.nextId + 1⟩)

/-- `get_output_panel`: reuse the existing panel of that name, creating it
only when none exists. -/
def get_output_panel (w : WindowPanels) (name : String) : Nat × WindowPanels :=
  match find_output_panel w name with
  | some p => (p, w)
  | none => create_output_panel w name

/-! ### Helper lemmas -/

theorem toList_append (a b : String) : (a ++ b).toList = a.toList ++ b.toList := by
  show (a ++ b).data = a.data ++ b.data
  exact String.data_append a b

theorem mem_dropWhile_of_neg {α : Type} (p : α → Bool) :
    ∀ (l : List α) (c : α), c ∈ l → p c = false → c ∈ l.dropWhile p := by
  intro l
  induction l with
  | nil => intro c hc _; cases hc
  | cons a t ih =>
    intro c hc hp
    by_cases hpa : p a = true
    · rcases List.mem_cons.mp hc with rfl | hct
      · rw [hpa] at hp; cases hp
      · simpa [List.dropWhile, hpa] using ih c hct hp
    · simp only [List.dropWhile, Bool.not_eq_true] at hpa ⊢
      rw [hpa]
      exact hc

theorem dropWhile_eq_nil_of_all {α : Type} (p : α → Bool) (l : List α)
    (h : ∀ x ∈ l, p x = true) : l.dropWhile p = [] := by
  induction l with
  | nil => rfl
  | cons a t ih =>
    have ha := h a (List.mem_cons_self a t)
    simp only [List.dropWhile, ha]
    exact ih (fun x hx => h x (List.mem_cons_of_mem a hx))

theorem pyStrip_eq_empty_iff (s : String) :
    pyStrip s = "" ↔ ∀ ch ∈ s.toList, isPySpace ch = true := by
  constructor
  · intro h ch hch
    by_contra hws
    have hws' : isPySpace ch = false := by
      cases hcase : isPySpace ch
      · rfl
      · exact absurd hcase hws
    have h1 : ch ∈ s.toList.dropWhile isPySpace := mem_dropWhile_of_neg _ _ _ hch hws'
    have h2 : ch ∈ (s.toList.dropWhile isPySpace).reverse := List.mem_reverse.mpr h1
    have h3 : ch ∈ (s.toList.dropWhile isPySpace).reverse.dropWhile isPySpace :=
      mem_dropWhile_of_neg _ _ _ h2 hws'
    have hnil : (((s.toList.dropWhile isPySpace).reverse.dropWhile isPySpace).reverse) = [] := by
      have := congrArg String.data h
      simpa [pyStrip] using this
    rw [List.reverse_eq_nil_iff] at hnil
    rw [hnil] at h3
    cases h3
  · intro h
    have h1 : s.toList.dropWhile isPySpace = [] := dropWhile_eq_nil_of_all _ _ h
    have h2 : s.data.dropWhile isPySpace = [] := h1
    simp [pyStrip, h2]

theorem pyStrip_ne_empty_of_mem (s : String) (ch : Char) (hch : ch ∈ s.toList)
    (hws : isPySpace ch = false) : pyStrip s ≠ "" := by
  intro h
  have := (pyStrip_eq_empty_iff s).mp h ch hch
  rw [hws] at this
  cases this

/-- `spawnEvents` of any mur invocation: exactly one spawn, with argv
`["mur"] ++ args` and the derived working directory. -/
theorem spawnEvents_run (args : List String) (status_msg : String) (clear : Bool)
    (view : Option ViewState) (o : SpawnOutcome) :
    spawnEvents (run_mur_command args status_msg clear view o) =
      [(["mur"] ++ args, activeViewCwd view)] := by
  rcases o with r | _ | msg
  · by_cases h1 : pyStrip (combinedOutput r) = "" <;>
      by_cases h2 : r.returncode = 0 <;>
      rcases clear <;>
      simp [run_mur_command, threadBody, spawnEvents, List.filterMap_append, h1, h2]
  · rcases clear <;>
      simp [run_mur_command, threadBody, spawnEvents, List.filterMap_append]
  · rcases clear <;>
      simp [run_mur_command, threadBody, spawnEvents, List.filterMap_append]

theorem statusMessages_run_completed (args : List String) (status_msg : String)
    (clear : Bool) (view : Option ViewState) (r : CompletedProcess) :
    statusMessages (run_mur_command args status_msg clear view (SpawnOutcome.completed r)) =
      ["Murmur: " ++ status_msg ++ "...",
       "Murmur: " ++ status_msg ++ (if r.returncode = 0 then " complete" else " failed")] := by
  by_cases h1 : pyStrip (combinedOutput r) = "" <;>
    by_cases h2 : r.returncode = 0 <;>
    rcases clear <;>
    simp [run_mur_command, threadBody, statusMessages, List.filterMap_append, h1, h2,
      String.append_assoc]

theorem statusMessages_run_fileNotFound (args : List String) (status_msg : String)
    (clear : Bool) (view : Option ViewState) :
    statusMessages (run_mur_command args status_msg clear view SpawnOutcome.raiseFileNotFound) =
      ["Murmur: " ++ status_msg ++ "...", "Murmur: CLI not found"] := by
  rcases clear <;>
    simp [run_mur_command, threadBody, statusMessages, List.filterMap_append]

theorem statusMessages_run_raiseOther (args : List String) (status_msg : String)
    (clear : Bool) (view : Option ViewState) (msg : String) :
    statusMessages (run_mur_command args status_msg clear view (SpawnOutcome.raiseOther msg)) =
      ["Murmur: " ++ status_msg ++ "...", "Murmur: Error occurred"] := by
  rcases clear <;>
    simp [run_mur_command, threadBody, statusMessages, List.filterMap_append]

theorem appendedOutputs_run_completed (args : List String) (status_msg : String)
    (clear : Bool) (view : Option ViewState) (r : CompletedProcess) :
    appendedOutputs (run_mur_command args status_msg clear view (SpawnOutcome.completed r)) =
      echoLine args ::
        (if pyStrip (combinedOutput r) = "" then [] else [combinedOutput r]) := by
  by_cases h1 : pyStrip (combinedOutput r) = "" <;>
    by_cases h2 : r.returncode = 0 <;>
    rcases clear <;>
    simp [run_mur_command, threadBody, appendedOutputs, List.filterMap_append, h1, h2]

theorem appendedOutputs_run_fileNotFound (args : List String) (status_msg : String)
    (clear : Bool) (view : Option ViewState) :
    appendedOutputs (run_mur_command args status_msg clear view SpawnOutcome.raiseFileNotFound) =
      [echoLine args, errorNotFoundMsg] := by
  rcases clear <;>
    simp [run_mur_command, threadBody, appendedOutputs, List.filterMap_append]

theorem appendedOutputs_run_raiseOther (args : List String) (status_msg : String)
    (clear : Bool) (view : Option ViewState) (msg : String) :
    appendedOutputs (run_mur_command args status_msg clear view (SpawnOutcome.raiseOther msg)) =
      [echoLine args, "Error: " ++ msg] := by
  rcases clear <;>
    simp [run_mur_command, threadBody, appendedOutputs, List.filterMap_append]

theorem panelAfter_run_completed (p : String) (args : List String) (status_msg : String)
    (clear : Bool) (view : Option ViewState) (r : CompletedProcess) :
    panelAfter p (run_mur_command args status_msg clear view (SpawnOutcome.completed r)) =
      (if clear then "" else p) ++ (echoLine args ++ ("\n" ++
        (if pyStrip (combinedOutput r) = "" then "" else combinedOutput r ++ "\n"))) := by
  by_cases h1 : pyStrip (combinedOutput r) = "" <;>
    by_cases h2 : r.returncode = 0 <;>
    rcases clear <;>
    simp [run_mur_command, threadBody, panelAfter, applyEffect, List.foldl_append, h1, h2,
      String.append_assoc]

theorem panelAfter_run_fileNotFound (p : String) (args : List String) (status_msg : String)
    (clear : Bool) (view : Option ViewState) :
    panelAfter p (run_mur_command args status_msg clear view SpawnOutcome.raiseFileNotFound) =
      (if clear then "" else p) ++ (echoLine args ++ ("\n" ++ (errorNotFoundMsg ++ "\n"))) := by
  rcases clear <;>
    simp [run_mur_command, threadBody, panelAfter, applyEffect, List.foldl_append,
      String.append_assoc]

theorem panelAfter_run_raiseOther (p : String) (args : List String) (status_msg : String)
    (clear : Bool) (view : Option ViewState) (msg : String) :
    panelAfter p (run_mur_command args status_msg clear view (SpawnOutcome.raiseOther msg)) =
      (if clear then "" else p) ++ (echoLine args ++ ("\n" ++ ("Error: " ++ (msg ++ "\n")))) := by
  rcases clear <;>
    simp [run_mur_command, threadBody, panelAfter, applyEffect, List.foldl_append,
      String.append_assoc]

/-! ### Claim theorems -/

/-- C1: for every invocation of one of the four mur-backed commands that
completes the subprocess call, the final status message is determined
solely by the exit code — exactly the running status followed by
"Murmur: <status_msg> complete" on exit code 0 and
"Murmur: <status_msg> failed" on any non-zero exit code — while the
panel-append events are unchanged by the exit code; no error-path status
is ever produced for a completed subprocess (a non-zero exit code is not
an exception). -/
theorem c1_exit_code_determines_status (c : MurCommandInvocation)
    (hc : c ∈ murBackedCommands) (view : Option ViewState) (r : CompletedProcess) :
    statusMessages (invoke c view (SpawnOutcome.completed r)) =
      ["Murmur: " ++ c.status_msg ++ "...",
       "Murmur: " ++ c.status_msg ++ (if r.returncode = 0 then " complete" else " failed")] ∧
    appendedOutputs (invoke c view (SpawnOutcome.completed r)) =
      appendedOutputs (invoke c view (SpawnOutcome.completed ⟨0, r.stdout, r.stderr⟩)) := by
  refine ⟨statusMessages_run_completed _ _ _ _ _, ?_⟩
  rw [invoke, invoke, appendedOutputs_run_completed, appendedOutputs_run_completed]
  rfl

theorem c1_exit_code_determines_status_witness :
    murmurSyncCommand ∈ murBackedCommands ∧
    (statusMessages (invoke murmurSyncCommand none (SpawnOutcome.completed ⟨1, "", "bad"⟩)) =
      ["Murmur: " ++ murmurSyncCommand.status_msg ++ "...",
       "Murmur: " ++ murmurSyncCommand.status_msg ++
         (if (1 : Int) = 0 then " complete" else " failed")] ∧
    appendedOutputs (invoke murmurSyncCommand none (SpawnOutcome.completed ⟨1, "", "bad"⟩)) =
      appendedOutputs (invoke murmurSyncCommand none (SpawnOutcome.completed ⟨0, "", "bad"⟩))) :=
  ⟨by decide, c1_exit_code_determines_status murmurSyncCommand (by decide) none ⟨1, "", "bad"⟩⟩

/-- C2: when the spawn raises `FileNotFoundError`, the panel receives
(after the echoed command line) exactly the fixed installation-instructions
message, the status bar receives exactly the running status followed by
"Murmur: CLI not found" (which contains "not found"), that is also the
final status, and no status message containing "complete" or "failed" is
shown. -/
theorem c2_file_not_found (c : MurCommandInvocation) (hc : c ∈ murBackedCommands)
    (view : Option ViewState) :
    appendedOutputs (invoke c view SpawnOutcome.raiseFileNotFound) =
      [echoLine c.args, errorNotFoundMsg] ∧
    errorNotFoundMsg =
      "Error: 'mur' command not found.\nPlease install murmur-ai CLI and ensure it's in your PATH.\nSee: https://github.com/anthropics/murmur-ai" ∧
    statusMessages (invoke c view SpawnOutcome.raiseFileNotFound) =
      ["Murmur: " ++ c.status_msg ++ "...", "Murmur: CLI not found"] ∧
    finalStatus (invoke c view SpawnOutcome.raiseFileNotFound) =
      some "Murmur: CLI not found" ∧
    strContains "Murmur: CLI not found" "not found" ∧
    (∀ m ∈ statusMessages (invoke c view SpawnOutcome.raiseFileNotFound),
      ¬ strContains m "complete" ∧ ¬ strContains m "failed") := by
  have hs := statusMessages_run_fileNotFound c.args c.status_msg c.clear view
  refine ⟨appendedOutputs_run_fileNotFound _ _ _ _, rfl, hs, ?_, by decide, ?_⟩
  · rw [finalStatus, invoke, hs]; rfl
  · rw [invoke, hs]
    fin_cases hc <;> decide

theorem c2_file_not_found_witness :
    murmurStatsCommand ∈ murBackedCommands ∧
    (appendedOutputs (invoke murmurStatsCommand none SpawnOutcome.raiseFileNotFound) =
      [echoLine murmurStatsCommand.args, errorNotFoundMsg] ∧
    errorNotFoundMsg =
      "Error: 'mur' command not found.\nPlease install murmur-ai CLI and ensure it's in your PATH.\nSee: https://github.com/anthropics/murmur-ai" ∧
    statusMessages (invoke murmurStatsCommand none SpawnOutcome.raiseFileNotFound) =
      ["Murmur: " ++ murmurStatsCommand.status_msg ++ "...", "Murmur: CLI not found"] ∧
    finalStatus (invoke murmurStatsCommand none SpawnOutcome.raiseFileNotFound) =
      some "Murmur: CLI not found" ∧
    strContains "Murmur: CLI not found" "not found" ∧
    (∀ m ∈ statusMessages (invoke murmurStatsCommand none SpawnOutcome.raiseFileNotFound),
      ¬ strContains m "complete" ∧ ¬ strContains m "failed")) :=
  ⟨by decide, c2_file_not_found murmurStatsCommand (by decide) none⟩

/-- C3: any exception other than `FileNotFoundError` during spawn/capture
is caught and rendered as "Error: <message>" in the panel (after the
echoed command line) with the generic status "Murmur: Error occurred",
and every outcome of the background task — normal or exceptional —
terminates with a final status message rather than propagating an
exception. -/
theorem c3_generic_exception (args : List String) (status_msg : String)
    (clear : Bool) (view : Option ViewState) (msg : String) :
    appendedOutputs (run_mur_command args status_msg clear view (SpawnOutcome.raiseOther msg)) =
      [echoLine args, "Error: " ++ msg] ∧
    statusMessages (run_mur_command args status_msg clear view (SpawnOutcome.raiseOther msg)) =
      ["Murmur: " ++ status_msg ++ "...", "Murmur: Error occurred"] ∧
    finalStatus (run_mur_command args status_msg clear view (SpawnOutcome.raiseOther msg)) =
      some "Murmur: Error occurred" ∧
    (∀ o : SpawnOutcome, ∃ m,
      finalStatus (run_mur_command args status_msg clear view o) = some m) := by
  have hs := statusMessages_run_raiseOther args status_msg clear view msg
  refine ⟨appendedOutputs_run_raiseOther _ _ _ _ _, hs, ?_, ?_⟩
  · rw [finalStatus, hs]; rfl
  · intro o
    rcases o with r | _ | m
    · refine ⟨"Murmur: " ++ status_msg ++
        (if r.returncode = 0 then " complete" else " failed"), ?_⟩
      rw [finalStatus, statusMessages_run_completed]; rfl
    · refine ⟨"Murmur: CLI not found", ?_⟩
      rw [finalStatus, statusMessages_run_fileNotFound]; rfl
    · refine ⟨"Murmur: Error occurred", ?_⟩
      rw [finalStatus, statusMessages_run_raiseOther]; rfl

/-- C5: for every invocation of a mur-backed command, the cwd passed to
the subprocess is exactly the derived working directory: the dirname of
the active view's file when the view has a (non-empty) file name, and no
override (`None`) when there is no active view or the view has no file;
`dirname "/a/b/file.txt" = "/a/b"`. -/
theorem c5_working_directory (c : MurCommandInvocation) (hc : c ∈ murBackedCommands)
    (view : Option ViewState) (o : SpawnOutcome) (f : String) (hf : f ≠ "") :
    spawnEvents (invoke c view o) = [(["mur"] ++ c.args, activeViewCwd view)] ∧
    activeViewCwd (some ⟨some f⟩) = some (dirname f) ∧
    activeViewCwd (some ⟨none⟩) = none ∧
    activeViewCwd none = none ∧
    dirname "/a/b/file.txt" = "/a/b" := by
  refine ⟨spawnEvents_run _ _ _ _ _, ?_, rfl, rfl, by decide⟩
  simp [activeViewCwd, hf]

theorem c5_working_directory_witness :
    (murmurSyncCommand ∈ murBackedCommands ∧ "/a/b/file.txt" ≠ "") ∧
    (spawnEvents (invoke murmurSyncCommand (some ⟨some "/a/b/file.txt"⟩)
        (SpawnOutcome.completed ⟨0, "ok", ""⟩)) =
      [(["mur"] ++ murmurSyncCommand.args, activeViewCwd (some ⟨some "/a/b/file.txt"⟩))] ∧
    activeViewCwd (some ⟨some "/a/b/file.txt"⟩) = some (dirname "/a/b/file.txt") ∧
    activeViewCwd (some ⟨none⟩) = none ∧
    activeViewCwd none = none ∧
    dirname "/a/b/file.txt" = "/a/b") :=
  ⟨⟨by decide, by decide⟩,
   c5_working_directory murmurSyncCommand (by decide) (some ⟨some "/a/b/file.txt"⟩)
     (SpawnOutcome.completed ⟨0, "ok", ""⟩) "/a/b/file.txt" (by decide)⟩

/-- C6: all four mur-backed commands pass the default `clear=True`, and
under `clear=True` the panel contents after the invocation are the same
whatever text the panel held before — the trace first clears the panel
and only then echoes the command line, so the panel is emptied and
repopulated, never appended to stale content. -/
theorem c6_clear_before_output (c : MurCommandInvocation) (hc : c ∈ murBackedCommands)
    (view : Option ViewState) (o : SpawnOutcome) (p : String) :
    c.clear = true ∧
    panelAfter p (invoke c view o) = panelAfter "" (invoke c view o) ∧
    List.take 3 (invoke c view o) =
      [Effect.ui (UIAction.status ("Murmur: " ++ c.status_msg ++ "...")),
       Effect.ui UIAction.clearPanel,
       Effect.ui (UIAction.showOutput (echoLine c.args))] := by
  have hcl : c.clear = true := by fin_cases hc <;> rfl
  refine ⟨hcl, ?_, ?_⟩
  · rcases o with r | _ | msg
    · rw [invoke, panelAfter_run_completed, panelAfter_run_completed, hcl]; simp
    · rw [invoke, panelAfter_run_fileNotFound, panelAfter_run_fileNotFound, hcl]; simp
    · rw [invoke, panelAfter_run_raiseOther, panelAfter_run_raiseOther, hcl]; simp
  · rcases o with r | _ | msg <;>
      simp [invoke, run_mur_command, threadBody, hcl]

theorem c6_clear_before_output_witness :
    murmurPatternsCommand ∈ murBackedCommands ∧
    (murmurPatternsCommand.clear = true ∧
    panelAfter "stale text" (invoke murmurPatternsCommand none SpawnOutcome.raiseFileNotFound) =
      panelAfter "" (invoke murmurPatternsCommand none SpawnOutcome.raiseFileNotFound) ∧
    List.take 3 (invoke murmurPatternsCommand none SpawnOutcome.raiseFileNotFound) =
      [Effect.ui (UIAction.status ("Murmur: " ++ murmurPatternsCommand.status_msg ++ "...")),
       Effect.ui UIAction.clearPanel,
       Effect.ui (UIAction.showOutput (echoLine murmurPatternsCommand.args))]) :=
  ⟨by decide, c6_clear_before_output murmurPatternsCommand (by decide) none
    SpawnOutcome.raiseFileNotFound "stale text"⟩

/-- C7: each of the four mur-backed commands spawns exactly one
subprocess, with argv exactly `["mur"]` followed by its fixed argument
vector, whatever the active view and outcome. -/
theorem c7_fixed_argument_vectors (view : Option ViewState) (o : SpawnOutcome) :
    spawnEvents (invoke murmurSyncCommand view o) =
      [(["mur", "sync", "all"], activeViewCwd view)] ∧
    spawnEvents (invoke murmurLearnExtractCommand view o) =
      [(["mur", "learn", "extract", "--auto"], activeViewCwd view)] ∧
    spawnEvents (invoke murmurStatsCommand view o) =
      [(["mur", "stats"], activeViewCwd view)] ∧
    spawnEvents (invoke murmurPatternsCommand view o) =
      [(["mur", "patterns", "list"], activeViewCwd view)] := by
  refine ⟨?_, ?_, ?_, ?_⟩ <;>
    exact spawnEvents_run _ _ _ _ _

/-- C8: the settings command issues exactly one file-open request, for the
literal settings path, and its trace contains no subprocess spawn and
nothing else. -/
theorem c8_settings_command :
    openFileEvents murmurOpenSettingsEffects =
      ["${packages}/MurmurAI/MurmurAI.sublime-settings"] ∧
    spawnEvents murmurOpenSettingsEffects = [] ∧
    murmurOpenSettingsEffects.length = 1 :=
  ⟨rfl, rfl, rfl⟩

/-- C10: failure is not atomic with respect to the panel: with
`clear=True`, both failure outcomes (executable-not-found and any other
exception) leave the panel holding exactly the echoed command line
followed by the error text — independent of the panel's prior content —
and the trace performs the clear and the echo before the spawn attempt. -/
theorem c10_failure_not_atomic (args : List String) (status_msg : String)
    (view : Option ViewState) (p : String) (msg : String) :
    panelAfter p (run_mur_command args status_msg true view SpawnOutcome.raiseFileNotFound) =
      echoLine args ++ ("\n" ++ (errorNotFoundMsg ++ "\n")) ∧
    panelAfter p (run_mur_command args status_msg true view (SpawnOutcome.raiseOther msg)) =
      echoLine args ++ ("\n" ++ ("Error: " ++ (msg ++ "\n"))) ∧
    List.take 4 (run_mur_command args status_msg true view SpawnOutcome.raiseFileNotFound) =
      [Effect.ui (UIAction.status ("Murmur: " ++ status_msg ++ "...")),
       Effect.ui UIAction.clearPanel,
       Effect.ui (UIAction.showOutput (echoLine args)),
       Effect.spawn (["mur"] ++ args) (activeViewCwd view)] ∧
    List.take 4 (run_mur_command args status_msg true view (SpawnOutcome.raiseOther msg)) =
      [Effect.ui (UIAction.status ("Murmur: " ++ status_msg ++ "...")),
       Effect.ui UIAction.clearPanel,
       Effect.ui (UIAction.showOutput (echoLine args)),
       Effect.spawn (["mur"] ++ args) (activeViewCwd view)] := by
  refine ⟨?_, ?_, ?_, ?_⟩
  · rw [panelAfter_run_fileNotFound]; simp
  · rw [panelAfter_run_raiseOther]; simp
  · simp [run_mur_command, threadBody]
  · simp [run_mur_command, threadBody]

/-- C4 counterexample: the claim fails on the code in two ways at concrete
inputs. (1) stdout "a" / stderr "b": the displayed output is "a\nb" — the
code inserts a "\n" separator, not plain concatenation "ab". (2) stdout
" " / stderr "": the combined output " " is non-empty yet is NOT appended
(the code tests `output.strip()`), so "appended exactly when non-empty"
fails; and with stderr "  " (whitespace) and exit code 1 the panel does
not contain the stderr text. -/
theorem c4_counterexample :
    combinedOutput ⟨1, "a", "b"⟩ = "a\nb" ∧
    ("a\nb" : String) ≠ "a" ++ "b" ∧
    appendedOutputs (invoke murmurStatsCommand none (SpawnOutcome.completed ⟨1, "a", "b"⟩)) =
      [echoLine murmurStatsCommand.args, "a\nb"] ∧
    ("a" ++ "b") ∉
      appendedOutputs (invoke murmurStatsCommand none (SpawnOutcome.completed ⟨1, "a", "b"⟩)) ∧
    combinedOutput ⟨0, " ", ""⟩ = " " ∧
    (" " : String) ≠ "" ∧
    appendedOutputs (invoke murmurStatsCommand none (SpawnOutcome.completed ⟨0, " ", ""⟩)) =
      [echoLine murmurStatsCommand.args] ∧
    ¬ strContains (panelAfter "" (invoke murmurStatsCommand none
        (SpawnOutcome.completed ⟨1, "", "  "⟩))) "  " := by
  decide

/-- C4 amended: the displayed output is the captured stdout followed —
when stderr is non-empty — by a newline and the captured stderr; this
combined output is appended to the panel exactly when it is non-empty
after stripping whitespace (`output.strip()`); and when stderr contains a
non-whitespace character and the exit code is non-zero, the panel
contains the stderr text. -/
theorem c4_amended_output_assembly (c : MurCommandInvocation)
    (hc : c ∈ murBackedCommands) (view : Option ViewState) (r : CompletedProcess)
    (p : String) :
    appendedOutputs (invoke c view (SpawnOutcome.completed r)) =
      echoLine c.args ::
        (if pyStrip (r.stdout ++ (if r.stderr = "" then "" else "\n" ++ r.stderr)) = ""
          then []
          else [r.stdout ++ (if r.stderr = "" then "" else "\n" ++ r.stderr)]) ∧
    (r.returncode ≠ 0 → pyStrip r.stderr ≠ "" →
      strContains (panelAfter p (invoke c view (SpawnOutcome.completed r))) r.stderr) := by
  constructor
  · rw [invoke, appendedOutputs_run_completed]
    rfl
  · intro _ hse
    have hne : r.stderr ≠ "" := by
      intro h
      rw [h] at hse
      exact hse rfl
    have hco : combinedOutput r = r.stdout ++ ("\n" ++ r.stderr) := by
      rw [combinedOutput, if_neg hne]
    have hch : ∃ ch ∈ r.stderr.toList, isPySpace ch = false := by
      by_contra hall
      push_neg at hall
      apply hse
      rw [pyStrip_eq_empty_iff]
      intro ch hmem
      cases hcase : isPySpace ch
      · exact absurd hcase (hall ch hmem)
      · rfl
    obtain ⟨ch, hmem, hws⟩ := hch
    have hmem' : ch ∈ (combinedOutput r).toList := by
      rw [hco, toList_append, toList_append]
      simp only [List.mem_append]
      right; right
      exact hmem
    have hstrip : pyStrip (combinedOutput r) ≠ "" :=
      pyStrip_ne_empty_of_mem _ ch hmem' hws
    rw [invoke, panelAfter_run_completed, if_neg hstrip]
    unfold strContains
    rw [hco]
    refine ⟨(if c.clear = true then "" else p).toList ++ (echoLine c.args).toList ++
      "\n".toList ++ r.stdout.toList ++ "\n".toList, "\n".toList, ?_⟩
    simp [toList_append, List.append_assoc]

theorem c4_amended_output_assembly_witness :
    murmurStatsCommand ∈ murBackedCommands ∧
    ((1 : Int) ≠ 0 ∧ pyStrip "bad" ≠ "") ∧
    strContains (panelAfter "" (invoke murmurStatsCommand none
      (SpawnOutcome.completed ⟨1, "", "bad"⟩))) "bad" :=
  ⟨by decide, ⟨by decide, by decide⟩,
   (c4_amended_output_assembly murmurStatsCommand (by decide) none ⟨1, "", "bad"⟩ "").2
     (by decide) (by decide)⟩

/-- C9: the named output panel is created lazily and reused:
`get_output_panel` returns the window's existing panel of that name when
one exists (leaving the window unchanged), creates exactly one new panel
registered under that name when none exists, and a repeated
`get_output_panel` on the same name always returns the same panel — one
panel per window, looked up by name. -/
theorem c9_panel_lazy_creation (w : WindowPanels) (name : String) :
    (∀ pid, find_output_panel w name = some pid → get_output_panel w name = (pid, w)) ∧
    (find_output_panel w name = none →
      (get_output_panel w name).1 = w.nextId ∧
      (get_output_panel w name).2.panels = w.panels ++ [(name, w.nextId)]) ∧
    get_output_panel (get_output_panel w name).2 name =
      ((get_output_panel w name).1, (get_output_panel w name).2) := by
  refine ⟨?_, ?_, ?_⟩
  · intro pid h
    simp [get_output_panel, h]
  · intro h
    simp [get_output_panel, h, create_output_panel]
  · cases h : find_output_panel w name with
    | some pid => simp [get_output_panel, h]
    | none =>
      have h' : w.panels.find? (fun pr => pr.1 == name) = none := by
        have h2 := h
        rw [find_output_panel] at h2
        rcases hcase : w.panels.find? (fun pr => pr.1 == name) with _ | v
        · exact hcase
        · rw [hcase] at h2
          cases h2
      have hf : find_output_panel
          (⟨w.panels ++ [(name, w.nextId)], w.nextId + 1⟩ : WindowPanels) name =
            some w.nextId := by
        rw [find_output_panel]
        rw [List.find?_append, h']
        simp
      simp [get_output_panel, create_output_panel, h, hf]

theorem c9_panel_lazy_creation_witness :
    (find_output_panel (⟨[], 0⟩ : WindowPanels) "murmur" = none →
      (get_output_panel (⟨[], 0⟩ : WindowPanels) "murmur").1 = 0 ∧
      (get_output_panel (⟨[], 0⟩ : WindowPanels) "murmur").2.panels = [] ++ [("murmur", 0)]) ∧
    get_output_panel (get_output_panel (⟨[], 0⟩ : WindowPanels) "murmur").2 "murmur" =
      ((get_output_panel (⟨[], 0⟩ : WindowPanels) "murmur").1,
       (get_output_panel (⟨[], 0⟩ : WindowPanels) "murmur").2) :=
  ⟨(c9_panel_lazy_creation ⟨[], 0⟩ "murmur").2.1,
   (c9_panel_lazy_creation ⟨[], 0⟩ "murmur").2.2⟩
